import Mathlib

/-!
Shallow embedding of Qt's markdown importer
(`src/gui/text/qtextmarkdownimporter.cpp`): the event-driven document
builder that turns md4c parse events into rich-text document mutations.

The document sink (QTextDocument / QTextCursor) is an external collaborator;
it is modelled through its interface: a trace of mutation operations
(`DocOp`) plus the small amount of sink state the builder reads back
(table shape for `cellAt`, cursor block/char formats, list item formats).
-/

namespace QtMdImport

/-- QTextBlockFormat::MarkerType values used by the importer. -/
inductive BlockMarker
  | noMarker
  | unchecked
  | checked
  deriving Repr, DecidableEq

/-- md4c MD_ALIGN values. -/
inductive MDAlign
  | dflt
  | left
  | center
  | right
  deriving Repr, DecidableEq

/-- The Qt alignment values the importer produces. -/
inductive QtAlignment
  | leftVCenter
  | hCenterVCenter
  | rightVCenter
  deriving Repr, DecidableEq

/-- static MdAlignment: MD_ALIGN to Qt::Alignment (default argument
Qt::AlignLeft | Qt::AlignVCenter is used at every call site). -/
def MdAlignment : MDAlign → QtAlignment
  | .left => .leftVCenter
  | .center => .hCenterVCenter
  | .right => .rightVCenter
  | .dflt => .leftVCenter

/-- The QTextCharFormat fields this importer ever writes.  Fonts and colors
are abstract identifiers: only the fixed mono font and the palette link
color are ever used.  `setFont` is represented by the `font` field. -/
structure QTextCharFormat where
  fontItalic : Bool := false
  fontWeight : Nat := 50
  fontStrikeOut : Bool := false
  font : Option Nat := none
  anchorHref : Option String := none
  anchorNames : Option (List String) := none
  foreground : Option Nat := none
  fontSizeAdjustment : Option Int := none
  deriving Repr, DecidableEq

/-- The QTextBlockFormat fields this importer ever writes. -/
structure QTextBlockFormat where
  headingLevel : Nat := 0
  indent : Nat := 0
  leftMargin : Int := 0
  rightMargin : Int := 0
  topMargin : Int := 0
  bottomMargin : Int := 0
  marker : BlockMarker := .noMarker
  alignment : Option QtAlignment := none
  blockQuoteLevel : Option Int := none
  blockCodeLanguage : Option String := none
  blockTrailingHorizontalRulerWidth : Option Int := none
  deriving Repr, DecidableEq

/-- QTextListFormat styles used by the importer. -/
inductive QTextListStyle
  | listDisc
  | listCircle
  | listSquare
  | listDecimal
  deriving Repr, DecidableEq

/-- The QTextListFormat fields this importer ever writes. -/
structure QTextListFormat where
  indent : Nat := 0
  style : QTextListStyle := .listDisc
  numberSuffix : Option Char := none
  deriving Repr, DecidableEq

/-- One mutation issued on the document sink (§6 outbound interface). -/
inductive DocOp where
  | insertBlock (bf : QTextBlockFormat) (cf : QTextCharFormat)
  | insertText (s : String) (cf : QTextCharFormat)
  | insertHtml (s : String)
  | insertImage (name : String)
  | insertList (lf : QTextListFormat)
  | insertTable (rows cols : Nat)
  | appendColumns (n : Nat)
  | appendRows (n : Nat)
  | mergeCells (row col numRows numCols : Int)
  | setCellFormat (row col : Int) (cf : QTextCharFormat)
  deriving Repr, DecidableEq

/-- Association-list update/read helper for the sink-side records. -/
def assocGet {κ α : Type} [DecidableEq κ] : List (κ × α) → κ → α → α
  | [], _, d => d
  | (k, v) :: rest, key, d => if k = key then v else assocGet rest key d

/-- Sink-side state of the QTextTable the importer currently builds:
its shape (for cellAt validity, rows(), columns()) and per-cell formats. -/
structure TableObj where
  rows : Nat := 1
  cols : Nat := 1
  cellBlockFormat : List ((Int × Int) × QTextBlockFormat) := []
  cellCharFormat : List ((Int × Int) × QTextCharFormat) := []
  deriving Repr, DecidableEq

/-- QTextTable::cellAt: the cell is valid iff the address is inside the
table's current shape. -/
def cellValid (t : TableObj) (row col : Int) : Bool :=
  0 ≤ row && row < (t.rows : Int) && 0 ≤ col && col < (t.cols : Int)

/-- Sink-side state of one QTextList: its format, item count, and the block
format of its last item (the only item the importer ever reads back,
via list->item(list->count()-1)). -/
structure ListObj where
  fmt : QTextListFormat := {}
  count : Nat := 0
  lastItemBlockFormat : QTextBlockFormat := {}
  deriving Repr, DecidableEq

/-- The QTextCursor: active character/block format, whether the current
block belongs to a list (QTextCursor::currentList), and which table cell
the cursor is inside, if any. -/
structure Cursor where
  charFormat : QTextCharFormat := {}
  blockFormat : QTextBlockFormat := {}
  currentList : Option Nat := none
  inCell : Option (Int × Int) := none
  deriving Repr, DecidableEq

/-- md4c MD_BLOCKTYPE (the integer the importer stores in m_blockType);
`other n` covers forward-compatible unknown enum values. -/
inductive MDBlockType
  | doc
  | quote
  | ul
  | ol
  | li
  | hr
  | h
  | code
  | html
  | p
  | table
  | thead
  | tbody
  | tr
  | th
  | td
  | other (n : Nat)
  deriving Repr, DecidableEq

/-- An enter-block event together with its md4c detail payload. -/
inductive BlockEvent
  | p
  | quote
  | code (lang info : String)
  | h (level : Nat)
  | li ( is_task : Bool) ( task_mark : Char)
  | ul (mark : Char)
  | ol ( mark_delimiter : Char)
  | td (align : MDAlign)
  | th
  | tr
  | table
  | hr
  | doc
  | html
  | thead
  | tbody
  | other (n : Nat)
  deriving Repr, DecidableEq

/-- The MD_BLOCKTYPE value of an enter-block event (what cbEnterBlock
stores into m_blockType). -/
def BlockEvent.toType : BlockEvent → MDBlockType
  | .p => .p
  | .quote => .quote
  | .code _ _ => .code
  | .h _ => .h
  | .li _ _ => .li
  | .ul _ => .ul
  | .ol _ => .ol
  | .td _ => .td
  | .th => .th
  | .tr => .tr
  | .table => .table
  | .hr => .hr
  | .doc => .doc
  | .html => .html
  | .thead => .thead
  | .tbody => .tbody
  | .other n => .other n

/-- An enter-span event with its md4c detail payload. -/
inductive SpanEvent
  | em
  | strong
  | a (href title : String)
  | img (src title : String)
  | code
  | del
  | other (n : Nat)
  deriving Repr, DecidableEq

/-- md4c MD_SPANTYPE, as seen by cbLeaveSpan (detail unused there). -/
inductive SpanKind
  | em
  | strong
  | a
  | img
  | code
  | del
  | other (n : Nat)
  deriving Repr, DecidableEq

/-- md4c MD_TEXTTYPE. -/
inductive MDTextType
  | normal
  | nullchar
  | br
  | softbr
  | entity
  | code
  | html
  | latexmath
  deriving Repr, DecidableEq

/-- The State Context (§3): all fields of QTextMarkdownImporter that one
run of the import mutates, plus the modelled sink state and the op trace. -/
structure ImporterState where
  doc : List DocOp := []
  cursor : Cursor := {}
  lists : List (Nat × ListObj) := []
  nextListId : Nat := 0
  table : Option TableObj := none
  listStack : List Nat := []
  blockQuoteDepth : Int := 0
  blockType : MDBlockType := .doc
  codeBlock : Bool := false
  blockCodeLanguage : String := ""
  needsInsertBlock : Bool := false
  emptyList : Bool := false
  emptyListItem : Bool := false
  listItem : Bool := false
  imageSpan : Bool := false
  tableColumnCount : Int := 0
  tableRowCount : Int := 0
  tableCol : Int := 0
  nonEmptyTableCells : List Int := []
  spanFormatStack : List QTextCharFormat := []
  htmlTagDepth : Int := 0
  htmlAccumulator : String := ""
  warnings : List String := []
  paragraphMargin : Int := 0
  monoFont : Nat := 0
  paletteLink : Nat := 0
  deriving Repr, DecidableEq

/-- The state at the start of import(): doc cleared, counters zero,
m_paragraphMargin computed from the document's default font size. -/
def initialState (paragraphMargin : Int) (monoFont paletteLink : Nat) : ImporterState :=
  { paragraphMargin := paragraphMargin, monoFont := monoFont, paletteLink := paletteLink }

/-- Append one mutation to the sink trace. -/
def emit (st : ImporterState) (op : DocOp) : ImporterState :=
  { st with doc := st.doc ++ [op] }

/-- QTextCursor::setCharFormat. -/
def setCharFormat (st : ImporterState) (f : QTextCharFormat) : ImporterState :=
  { st with cursor := { st.cursor with charFormat := f } }

/-- QTextCursor::setBlockFormat.  The format is written through to the
sink object the current block belongs to (table cell / list last item),
because the importer later reads those back. -/
def setBlockFormat (st : ImporterState) (f : QTextBlockFormat) : ImporterState :=
  let st := { st with cursor := { st.cursor with blockFormat := f } }
  let st :=
    match st.cursor.inCell, st.table with
    | some rc, some t =>
        { st with table := some { t with cellBlockFormat := (rc, f) :: t.cellBlockFormat } }
    | _, _ => st
  match st.cursor.currentList with
  | some lid =>
      { st with lists := st.lists.map fun pr =>
          if pr.1 = lid then (pr.1, { pr.2 with lastItemBlockFormat := f }) else pr }
  | none => st

/-- QTextCursor::insertBlock(blockFormat, charFormat): a fresh block with
the given formats; a fresh block belongs to no list.  If the cursor is in
a table cell the new block becomes that cell's current block. -/
def cursorInsertBlock (st : ImporterState) (bf : QTextBlockFormat) (cf : QTextCharFormat) :
    ImporterState :=
  let st := emit st (.insertBlock bf cf)
  let st := { st with cursor := { st.cursor with
                                    blockFormat := bf, charFormat := cf,
                                    currentList := none } }
  match st.cursor.inCell, st.table with
  | some rc, some t =>
      { st with table := some { t with cellBlockFormat := (rc, bf) :: t.cellBlockFormat } }
  | _, _ => st

/-- QTextCursor::insertList: inserts a new block (inheriting the current
block format) and makes it the first item of a newly created list; returns
the list handle. -/
def cursorInsertList (st : ImporterState) (fmt : QTextListFormat) : ImporterState × Nat :=
  let lid := st.nextListId
  let st := emit st (.insertList fmt)
  let st :=
    { st with nextListId := lid + 1,
              lists := (lid, { fmt := fmt, count := 1,
                               lastItemBlockFormat := st.cursor.blockFormat }) :: st.lists,
              cursor := { st.cursor with currentList := some lid } }
  (st, lid)

/-- QTextList::add(m_cursor->block()): the current block becomes the
list's new last item. -/
def listAdd (st : ImporterState) (lid : Nat) : ImporterState :=
  { st with
      lists := st.lists.map fun pr =>
        if pr.1 = lid then
          (pr.1, { pr.2 with
                     count := pr.2.count + 1,
                     lastItemBlockFormat := st.cursor.blockFormat })
        else pr,
      cursor := { st.cursor with currentList := some lid } }

/-- Read a list object by handle. -/
def listObjOf (st : ImporterState) (lid : Nat) : ListObj :=
  assocGet st.lists lid {}

/-- BlockQuoteIndent = 40 pixels. -/
def BlockQuoteIndent : Int := 40

/-- The top of the span-format stack, or the empty character format if the
stack is empty (the recurring "m_spanFormatStack.isEmpty() ? QTextCharFormat()
: m_spanFormatStack.top()" pattern). -/
def spanStackTop : List QTextCharFormat → QTextCharFormat
  | [] => {}
  | top :: _ => top

/-- The block and character formats QTextMarkdownImporter::insertBlock
computes from the current state for a deferred block insertion. -/
def insertBlockFormats (st : ImporterState) : QTextBlockFormat × QTextCharFormat :=
  let charFormat : QTextCharFormat := spanStackTop st.spanFormatStack
  let blockFormat : QTextBlockFormat := {}
  let blockFormat :=
    if st.blockQuoteDepth ≠ 0 then
      { blockFormat with blockQuoteLevel := some st.blockQuoteDepth,
                         leftMargin := BlockQuoteIndent * st.blockQuoteDepth,
                         rightMargin := BlockQuoteIndent }
    else blockFormat
  let blockFormat :=
    if st.listStack.length ≠ 0 then { blockFormat with indent := st.listStack.length }
    else blockFormat
  if st.codeBlock then
    ({ blockFormat with blockCodeLanguage := some st.blockCodeLanguage },
     { charFormat with font := some st.monoFont })
  else
    ({ blockFormat with topMargin := st.paragraphMargin, bottomMargin := st.paragraphMargin },
     charFormat)

/-- QTextMarkdownImporter::insertBlock: the deferred block creation. -/
def insertBlock (st : ImporterState) : ImporterState :=
  let fmts := insertBlockFormats st
  let st := cursorInsertBlock st fmts.1 fmts.2
  { st with needsInsertBlock := false }

/-- The character-format snapshot cbEnterSpan's switch builds for a span
(MD_SPAN_IMG leaves the snapshot untouched, i.e. empty). -/
def spanSnapshot (st : ImporterState) : SpanEvent → QTextCharFormat
  | .em => { fontItalic := true }
  | .strong => { fontWeight := 75 }
  | .a href title =>
      { anchorHref := some href, anchorNames := some [title],
        foreground := some st.paletteLink }
  | .img _ _ => {}
  | .code => { font := some st.monoFont }
  | .del => { fontStrikeOut := true }
  | .other _ => {}

/-- QTextMarkdownImporter::cbEnterSpan. -/
def cbEnterSpan (st : ImporterState) (ev : SpanEvent) : ImporterState × Int :=
  let charFmt := spanSnapshot st ev
  let st :=
    match ev with
    | .img src _title =>
        let st := { st with imageSpan := true }
        let st := if st.needsInsertBlock then insertBlock st else st
        emit st (.insertImage src)
    | _ => st
  let st := { st with spanFormatStack := charFmt :: st.spanFormatStack }
  (setCharFormat st charFmt, 0)

/-- QTextMarkdownImporter::cbLeaveSpan. -/
def cbLeaveSpan (st : ImporterState) (k : SpanKind) : ImporterState × Int :=
  let popped : QTextCharFormat × ImporterState :=
    match st.spanFormatStack with
    | [] => ({}, st)
    | _ :: rest => (spanStackTop rest, { st with spanFormatStack := rest })
  let st := setCharFormat popped.2 popped.1
  let st := if k = .img then { st with imageSpan := false } else st
  (st, 0)

/-- Scanning state machine for QRegularExpression "<[a-zA-Z]" matches,
counted the way cbText counts them (after each match the search resumes
two characters further, so the matched pair is consumed).  `prev` is the
previous unconsumed character. -/
def scanOpenTags : Option Char → List Char → Nat
  | _, [] => 0
  | prev, b :: rest =>
      if prev = some '<' ∧ b.isAlpha then 1 + scanOpenTags none rest
      else scanOpenTags (some b) rest

/-- Number of opening-tag matches in a text fragment. -/
def countOpenTags (l : List Char) : Nat := scanOpenTags none l

/-- The same scanning state machine for the closing-tag pattern, the
alternation of "/>" and "</". -/
def scanCloseTags : Option Char → List Char → Nat
  | _, [] => 0
  | prev, b :: rest =>
      if (prev = some '/' ∧ b = '>') ∨ (prev = some '<' ∧ b = '/') then
        1 + scanCloseTags none rest
      else scanCloseTags (some b) rest

/-- Number of closing-tag matches in a text fragment. -/
def countCloseTags (l : List Char) : Nat := scanCloseTags none l

/-- QTextMarkdownImporter::cbText. -/
def cbText (st0 : ImporterState) (tt : MDTextType) (text : String) : ImporterState × Int :=
  if st0.imageSpan then (st0, 0)
  else
    let st := if st0.needsInsertBlock then insertBlock st0 else st0
    let step : String × ImporterState :=
      match tt with
      | .normal =>
          if st.htmlTagDepth ≠ 0 then
            ("", { st with htmlAccumulator := st.htmlAccumulator ++ text })
          else (text, st)
      | .nullchar => ("\uFFFD", st)
      | .br => ("\n", st)
      | .softbr => (" ", st)
      | .code => (text, st)
      | .entity => ("", emit st (.insertHtml text))
      | .html =>
          let depth := st.htmlTagDepth + (countOpenTags text.data : Int)
                         - (countCloseTags text.data : Int)
          let st := { st with htmlTagDepth := depth,
                              htmlAccumulator := st.htmlAccumulator ++ text }
          if depth = 0 then
            let st := emit st (.insertHtml st.htmlAccumulator)
            let st := setCharFormat st (spanStackTop st.spanFormatStack)
            ("", { st with htmlAccumulator := "" })
          else ("", st)
      | .latexmath => (text, st)
    let s := step.1
    let st := step.2
    let st :=
      if st.blockType = .td then
        { st with nonEmptyTableCells := st.nonEmptyTableCells ++ [st.tableCol] }
      else st
    let st := if s.isEmpty then st else emit st (.insertText s st.cursor.charFormat)
    let st :=
      match st.cursor.currentList with
      | some _ => setBlockFormat st { st.cursor.blockFormat with indent := 0 }
      | none => st
    (st, 0)

/-- QTextMarkdownImporter::cbEnterBlock.  `none` models C++ undefined
behavior: QStack::top / QStack::pop on an empty list stack, or
dereferencing a null m_currentTable (the event grammar prevents both). -/
def cbEnterBlock (st0 : ImporterState) (ev : BlockEvent) : Option (ImporterState × Int) :=
  let st := { st0 with blockType := ev.toType }
  match ev with
  | .p =>
      if st.listStack.isEmpty then some ({ st with needsInsertBlock := true }, 0)
      else if st.emptyListItem then some ({ st with emptyListItem := false }, 0)
      else some ({ st with needsInsertBlock := true }, 0)
  | .quote => some ({ st with blockQuoteDepth := st.blockQuoteDepth + 1 }, 0)
  | .code lang _info =>
      some ({ st with codeBlock := true, blockCodeLanguage := lang,
                      needsInsertBlock := true }, 0)
  | .h level =>
      let st := { st with needsInsertBlock := false }
      some (cursorInsertBlock st { headingLevel := level }
              { fontWeight := 75, fontSizeAdjustment := some (4 - (level : Int)) }, 0)
  | .li is_task task_mark =>
      let st := { st with needsInsertBlock := false }
      match st.listStack with
      | [] => none
      | lid :: _ =>
          let listObj := listObjOf st lid
          let bfmt := { listObj.lastItemBlockFormat with
                          marker := if is_task then
                              (if task_mark = ' ' then .unchecked else .checked)
                            else .noMarker }
          let st := if ! st.emptyList then listAdd (cursorInsertBlock st bfmt {}) lid else st
          let st := setBlockFormat st bfmt
          some ({ st with emptyList := false, listItem := true, emptyListItem := true }, 0)
  | .ul mark =>
      let fmt : QTextListFormat :=
        { indent := st.listStack.length + 1,
          style := if mark = '*' then .listCircle
                   else if mark = '+' then .listSquare
                   else .listDisc }
      let res := cursorInsertList st fmt
      some ({ res.1 with listStack := res.2 :: res.1.listStack, emptyList := true }, 0)
  | .ol mark_delimiter =>
      let fmt : QTextListFormat :=
        { indent := st.listStack.length + 1, numberSuffix := some mark_delimiter,
          style := .listDecimal }
      let res := cursorInsertList st fmt
      some ({ res.1 with listStack := res.2 :: res.1.listStack, emptyList := true }, 0)
  | .td align =>
      let st := { st with tableCol := st.tableCol + 1 }
      match st.table with
      | none => none
      | some t =>
          if cellValid t (st.tableRowCount - 1) st.tableCol then
            let rc : Int × Int := (st.tableRowCount - 1, st.tableCol)
            let st := { st with cursor := { st.cursor with
                          inCell := some rc, currentList := none,
                          blockFormat := assocGet t.cellBlockFormat rc {} } }
            let blockFmt := { st.cursor.blockFormat with
                                alignment := some (MdAlignment align) }
            some (setBlockFormat st blockFmt, 0)
          else
            some ({ st with
                      warnings := st.warnings ++ ["malformed table in Markdown input"] }, 1)
  | .th =>
      let st := { st with tableColumnCount := st.tableColumnCount + 1,
                          tableCol := st.tableCol + 1 }
      match st.table with
      | none => none
      | some t0 =>
          let grow :=
            if (t0.cols : Int) < st.tableColumnCount then
              let t1 := { t0 with cols := t0.cols + 1 }
              ({ (emit st (.appendColumns 1)) with table := some t1 }, t1)
            else (st, t0)
          let st := grow.1
          let t := grow.2
          if cellValid t (st.tableRowCount - 1) st.tableCol then
            let rc : Int × Int := (st.tableRowCount - 1, st.tableCol)
            let fmt := assocGet t.cellCharFormat rc {}
            let fmt := { fmt with fontWeight := 75 }
            let st := { st with table := some { t with
                          cellCharFormat := (rc, fmt) :: t.cellCharFormat } }
            some (emit st (.setCellFormat rc.1 rc.2 fmt), 0)
          else
            some ({ st with
                      warnings := st.warnings ++ ["malformed table in Markdown input"] }, 1)
  | .tr =>
      let st := { st with tableRowCount := st.tableRowCount + 1, nonEmptyTableCells := [] }
      match st.table with
      | none => none
      | some t =>
          let st :=
            if (t.rows : Int) < st.tableRowCount then
              { (emit st (.appendRows 1)) with table := some { t with rows := t.rows + 1 } }
            else st
          some ({ st with tableCol := -1 }, 0)
  | .table =>
      let st := { st with tableColumnCount := 0, tableRowCount := 0 }
      let st := emit st (.insertTable 1 1)
      -- insertTable(1, 1) also moves the cursor into the first cell
      some ({ st with table := some { rows := 1, cols := 1 },
                      cursor := { st.cursor with
                                    inCell := some (0, 0),
                                    currentList := none, blockFormat := {} } }, 0)
  | .hr =>
      some (cursorInsertBlock st { blockTrailingHorizontalRulerWidth := some 1 } {}, 0)
  | _ => some (st, 0)

/-- The nonnegative columns n, n-1, ..., 0 as integers. -/
def colsDescNat : Nat → List Int
  | 0 => [(0 : Int)]
  | n + 1 => ((n : Int) + 1) :: colsDescNat n

/-- The columns the TableRow-leave merge loop visits:
`for (int col = m_tableCol; col >= 0; --col)`. -/
def colsDesc (tc : Int) : List Int :=
  if tc < 0 then [] else colsDescNat tc.toNat

/-- The body of the TableRow-leave merge loop: scans the given columns
with the two run markers (`-1` sentinels become `none`) and collects the
(mergeBegin, mergeEnd) pairs passed to mergeCells. -/
def mergeLoop (nonEmpty : List Int) :
    List Int → Option Int → Option Int → List (Int × Int)
  | [], _, _ => []
  | col :: rest, mergeEnd, mergeBegin =>
      if col ∈ nonEmpty then
        (match mergeEnd, mergeBegin with
         | some e, some b => [(b, e)]
         | _, _ => []) ++ mergeLoop nonEmpty rest none none
      else
        match mergeEnd with
        | none => mergeLoop nonEmpty rest (some col) mergeBegin
        | some e => mergeLoop nonEmpty rest (some e) (some col)

/-- QTextMarkdownImporter::cbLeaveBlock.  `none` models the same
undefined behaviors as in cbEnterBlock. -/
def cbLeaveBlock (st : ImporterState) (t : MDBlockType) : Option (ImporterState × Int) :=
  match t with
  | .ul =>
      match st.listStack with
      | [] => none
      | _ :: rest => some ({ st with listStack := rest }, 0)
  | .ol =>
      match st.listStack with
      | [] => none
      | _ :: rest => some ({ st with listStack := rest }, 0)
  | .tr =>
      let merges := mergeLoop st.nonEmptyTableCells (colsDesc st.tableCol) none none
      match st.table with
      | some tab =>
          some (merges.foldl (fun s be =>
            emit s (.mergeCells ((tab.rows : Int) - 1) (be.1 - 1) 1 (be.2 - be.1 + 2))) st, 0)
      | none => if merges.isEmpty then some (st, 0) else none
  | .quote =>
      some ({ st with blockQuoteDepth := st.blockQuoteDepth - 1,
                      needsInsertBlock := true }, 0)
  | .table =>
      -- m_currentTable = nullptr; m_cursor->movePosition(QTextCursor::End)
      some ({ st with table := none,
                      cursor := { st.cursor with inCell := none, currentList := none } }, 0)
  | .li => some ({ st with listItem := false }, 0)
  | .code =>
      some ({ st with codeBlock := false, blockCodeLanguage := "",
                      needsInsertBlock := true }, 0)
  | .h => some (setCharFormat st {}, 0)
  | _ => some (st, 0)

/-- One md4c parse event as delivered to the callbacks. -/
inductive Event
  | enterBlock (ev : BlockEvent)
  | leaveBlock (t : MDBlockType)
  | enterSpan (ev : SpanEvent)
  | leaveSpan (k : SpanKind)
  | text (tt : MDTextType) (s : String)
  deriving Repr, DecidableEq

/-- Dispatch one event to its handler. -/
def step (st : ImporterState) : Event → Option (ImporterState × Int)
  | .enterBlock ev => cbEnterBlock st ev
  | .leaveBlock t => cbLeaveBlock st t
  | .enterSpan ev => some (cbEnterSpan st ev)
  | .leaveSpan k => some (cbLeaveSpan st k)
  | .text tt s => some (cbText st tt s)

/-- Run an event stream the way md_parse drives the callbacks: stop at the
first nonzero (abort) status. -/
def applyEvents (st : ImporterState) : List Event → Option (ImporterState × Int)
  | [] => some (st, 0)
  | e :: rest =>
      match step st e with
      | none => none
      | some (st', r) => if r ≠ 0 then some (st', r) else applyEvents st' rest

/-- The status of a handler result (abort signal; 0 = continue). -/
def statusOf (r : Option (ImporterState × Int)) : Int :=
  match r with
  | some (_, c) => c
  | none => 0

/-- The state of a handler result, with a fallback for the undefined case. -/
def stateOf (r : Option (ImporterState × Int)) (d : ImporterState) : ImporterState :=
  match r with
  | some (s, _) => s
  | none => d

/-! Concrete states and event streams used by the theorems below. -/

/-- A concrete initial state: paragraph margin 8, mono font 1, link color 2. -/
def st0 : ImporterState := initialState 8 1 2

/-- A 3-column table (header cells a, b, c) followed by a data row whose
first two cells hold text and whose third cell is empty. -/
def threeColTwoFilled : List Event :=
  [ .enterBlock .table, .enterBlock .tr,
    .enterBlock .th, .text .normal "a", .leaveBlock .th,
    .enterBlock .th, .text .normal "b", .leaveBlock .th,
    .enterBlock .th, .text .normal "c", .leaveBlock .th,
    .leaveBlock .tr,
    .enterBlock .tr,
    .enterBlock (.td .dflt), .text .normal "x", .leaveBlock .td,
    .enterBlock (.td .dflt), .text .normal "y", .leaveBlock .td,
    .enterBlock (.td .dflt), .leaveBlock .td,
    .leaveBlock .tr, .leaveBlock .table ]

/-- The same 3-column table with a data row whose only populated cell is
the first one (two trailing empty cells). -/
def threeColOneFilled : List Event :=
  [ .enterBlock .table, .enterBlock .tr,
    .enterBlock .th, .text .normal "a", .leaveBlock .th,
    .enterBlock .th, .text .normal "b", .leaveBlock .th,
    .enterBlock .th, .text .normal "c", .leaveBlock .th,
    .leaveBlock .tr,
    .enterBlock .tr,
    .enterBlock (.td .dflt), .text .normal "x", .leaveBlock .td,
    .enterBlock (.td .dflt), .leaveBlock .td,
    .enterBlock (.td .dflt), .leaveBlock .td,
    .leaveBlock .tr, .leaveBlock .table ]

/-- Recognizer for table cell-merge mutations in the sink trace. -/
def isMergeOp : DocOp → Bool
  | .mergeCells _ _ _ _ => true
  | _ => false

/-- C1 counterexample: in a 3-column table whose completed data row has
exactly its two leftmost cells populated (tableColumnCount = 3 and
nonEmptyTableCells = [0, 1] at row end), the import issues NO mergeCells
mutation at all — the rightmost populated cell is not merged with the one
trailing empty cell, contradicting the claimed span-2 merge. -/
theorem c1_counterexample :
    (applyEvents st0 threeColTwoFilled).map
      (fun pr => (pr.2, pr.1.doc.filter isMergeOp, pr.1.tableColumnCount,
                  pr.1.nonEmptyTableCells))
      = some (0, [], 3, [0, 1]) := by
  rfl

/-- C1 amended: the TableRow-leave resolver merges only when at least two
trailing empty cells follow a populated cell.  In the 3-column row with two
populated cells (one trailing empty cell) no merge is issued; in the
3-column row with one populated cell (two trailing empty cells) the
populated cell at column 0 is merged across all 3 columns. -/
theorem c1_theorem :
    (applyEvents st0 threeColTwoFilled).map (fun pr => pr.1.doc.filter isMergeOp)
        = some [] ∧
    (applyEvents st0 threeColOneFilled).map (fun pr => (pr.2, pr.1.doc.filter isMergeOp))
        = some (0, [.mergeCells 1 0 1 3]) := by
  exact ⟨rfl, rfl⟩

/-- C2: the merge resolver runs on TableRow leave over the columns from
the final currentColumn down to 0; at a non-empty column with both markers
set it merges the interval anchored at runStart-1 spanning
runEnd-runStart+2 columns and clears both markers (at a non-empty column
with only runEnd set it merges nothing and clears); at an empty column it
sets runEnd if unset, otherwise runStart. -/
theorem c2_theorem :
    (∀ tc : Int, ¬ tc < 0 → colsDesc tc = tc :: colsDesc (tc - 1)) ∧
    (∀ tc : Int, tc < 0 → colsDesc tc = []) ∧
    (∀ (ne rest : List Int) (c e b : Int), c ∈ ne →
        mergeLoop ne (c :: rest) (some e) (some b)
          = (b, e) :: mergeLoop ne rest none none) ∧
    (∀ (ne rest : List Int) (c : Int) (mb : Option Int), c ∈ ne →
        mergeLoop ne (c :: rest) none mb = mergeLoop ne rest none none) ∧
    (∀ (ne rest : List Int) (c e : Int), c ∈ ne →
        mergeLoop ne (c :: rest) (some e) none = mergeLoop ne rest none none) ∧
    (∀ (ne rest : List Int) (c : Int) (mb : Option Int), c ∉ ne →
        mergeLoop ne (c :: rest) none mb = mergeLoop ne rest (some c) mb) ∧
    (∀ (ne rest : List Int) (c e : Int) (mb : Option Int), c ∉ ne →
        mergeLoop ne (c :: rest) (some e) mb = mergeLoop ne rest (some e) (some c)) ∧
    (∀ (st : ImporterState) (tab : TableObj), st.table = some tab →
        cbLeaveBlock st .tr
          = some ((mergeLoop st.nonEmptyTableCells (colsDesc st.tableCol) none none).foldl
              (fun s be =>
                emit s (.mergeCells ((tab.rows : Int) - 1) (be.1 - 1) 1 (be.2 - be.1 + 2)))
              st, 0)) := by
  refine ⟨?_, ?_, ?_, ?_, ?_, ?_, ?_, ?_⟩
  · intro tc h
    obtain ⟨n, rfl⟩ := Int.eq_ofNat_of_zero_le (not_lt.mp h)
    cases n with
    | zero => norm_num [colsDesc, colsDescNat]
    | succ m =>
        have h1 : ¬((m + 1 : Nat) : Int) < 0 := not_lt.mpr (Int.natCast_nonneg _)
        have e1 : ((m + 1 : Nat) : Int) - 1 = (m : Int) := by push_cast; ring
        have h2 : ¬((m : Nat) : Int) < 0 := not_lt.mpr (Int.natCast_nonneg _)
        simp only [colsDesc, e1, if_neg h1, if_neg h2, Int.toNat_natCast]
        simp [colsDescNat]
  · intro tc h
    simp [colsDesc, h]
  · intro ne rest c e b h
    simp [mergeLoop, h]
  · intro ne rest c mb h
    simp [mergeLoop, h]
  · intro ne rest c e h
    simp [mergeLoop, h]
  · intro ne rest c mb h
    simp [mergeLoop, h]
  · intro ne rest c e mb h
    simp [mergeLoop, h]
  · intro st tab h
    simp [cbLeaveBlock, h]

/-- The table object of the C2 witness state. -/
def c2wTab : TableObj := { rows := 2, cols := 3 }

/-- A state in the middle of a table import: 3 columns, second row current,
only column 0 populated. -/
def c2wState : ImporterState :=
  { st0 with table := some c2wTab, tableCol := 2, nonEmptyTableCells := [0] }

/-- C2 witness: the resolver equations instantiated at concrete inputs. -/
theorem c2_witness :
    colsDesc 2 = 2 :: colsDesc 1 ∧
    colsDesc (-1) = [] ∧
    mergeLoop [0] ((0 : Int) :: []) (some 2) (some 1)
      = ((1 : Int), (2 : Int)) :: mergeLoop [0] [] none none ∧
    mergeLoop [0] ((0 : Int) :: []) none none = mergeLoop [0] [] none none ∧
    mergeLoop [0] ((0 : Int) :: []) (some 2) none = mergeLoop [0] [] none none ∧
    mergeLoop [0] ((1 : Int) :: []) none none = mergeLoop [0] [] (some 1) none ∧
    mergeLoop [0] ((1 : Int) :: []) (some 2) none = mergeLoop [0] [] (some 2) (some 1) ∧
    cbLeaveBlock c2wState .tr
      = some ((mergeLoop c2wState.nonEmptyTableCells (colsDesc c2wState.tableCol) none none).foldl
          (fun s be => emit s (.mergeCells ((c2wTab.rows : Int) - 1) (be.1 - 1) 1 (be.2 - be.1 + 2)))
          c2wState, 0) := by
  refine ⟨c2_theorem.1 2 (by decide), c2_theorem.2.1 (-1) (by decide),
          c2_theorem.2.2.1 [0] [] 0 2 1 (by decide),
          c2_theorem.2.2.2.1 [0] [] 0 none (by decide),
          c2_theorem.2.2.2.2.1 [0] [] 0 2 (by decide),
          c2_theorem.2.2.2.2.2.1 [0] [] 1 none (by decide),
          c2_theorem.2.2.2.2.2.2.1 [0] [] 1 2 none (by decide),
          c2_theorem.2.2.2.2.2.2.2 c2wState c2wTab rfl⟩

/-! Frame lemmas: which state components the sink helpers leave alone. -/

@[simp] theorem emit_spanFormatStack (st : ImporterState) (op : DocOp) :
    (emit st op).spanFormatStack = st.spanFormatStack := rfl

@[simp] theorem emit_cursor (st : ImporterState) (op : DocOp) :
    (emit st op).cursor = st.cursor := rfl

@[simp] theorem emit_doc (st : ImporterState) (op : DocOp) :
    (emit st op).doc = st.doc ++ [op] := rfl

@[simp] theorem setCharFormat_charFormat (st : ImporterState) (f : QTextCharFormat) :
    (setCharFormat st f).cursor.charFormat = f := rfl

@[simp] theorem setCharFormat_spanFormatStack (st : ImporterState) (f : QTextCharFormat) :
    (setCharFormat st f).spanFormatStack = st.spanFormatStack := rfl

@[simp] theorem setCharFormat_doc (st : ImporterState) (f : QTextCharFormat) :
    (setCharFormat st f).doc = st.doc := rfl

@[simp] theorem cursorInsertBlock_spanFormatStack (st : ImporterState)
    (bf : QTextBlockFormat) (cf : QTextCharFormat) :
    (cursorInsertBlock st bf cf).spanFormatStack = st.spanFormatStack := by
  unfold cursorInsertBlock
  dsimp only
  split <;> rfl

@[simp] theorem cursorInsertBlock_charFormat (st : ImporterState)
    (bf : QTextBlockFormat) (cf : QTextCharFormat) :
    (cursorInsertBlock st bf cf).cursor.charFormat = cf := by
  unfold cursorInsertBlock
  dsimp only
  split <;> rfl

@[simp] theorem cursorInsertBlock_doc (st : ImporterState)
    (bf : QTextBlockFormat) (cf : QTextCharFormat) :
    (cursorInsertBlock st bf cf).doc = st.doc ++ [.insertBlock bf cf] := by
  unfold cursorInsertBlock
  dsimp only
  split <;> rfl

@[simp] theorem cursorInsertBlock_needsInsertBlock (st : ImporterState)
    (bf : QTextBlockFormat) (cf : QTextCharFormat) :
    (cursorInsertBlock st bf cf).needsInsertBlock = st.needsInsertBlock := by
  unfold cursorInsertBlock
  dsimp only
  split <;> rfl

@[simp] theorem cursorInsertBlock_currentList (st : ImporterState)
    (bf : QTextBlockFormat) (cf : QTextCharFormat) :
    (cursorInsertBlock st bf cf).cursor.currentList = none := by
  unfold cursorInsertBlock
  dsimp only
  split <;> rfl

@[simp] theorem insertBlock_spanFormatStack (st : ImporterState) :
    (insertBlock st).spanFormatStack = st.spanFormatStack := by
  unfold insertBlock
  simp

@[simp] theorem insertBlock_doc (st : ImporterState) :
    (insertBlock st).doc
      = st.doc ++ [.insertBlock (insertBlockFormats st).1 (insertBlockFormats st).2] := by
  unfold insertBlock
  simp

@[simp] theorem insertBlock_needsInsertBlock (st : ImporterState) :
    (insertBlock st).needsInsertBlock = false := rfl

@[simp] theorem insertBlock_charFormat (st : ImporterState) :
    (insertBlock st).cursor.charFormat = (insertBlockFormats st).2 := by
  unfold insertBlock
  simp

@[simp] theorem insertBlock_currentList (st : ImporterState) :
    (insertBlock st).cursor.currentList = none := by
  unfold insertBlock
  simp

@[simp] theorem insertBlock_htmlTagDepth (st : ImporterState) :
    (insertBlock st).htmlTagDepth = st.htmlTagDepth := by
  unfold insertBlock cursorInsertBlock
  dsimp only
  split <;> rfl

@[simp] theorem insertBlock_htmlAccumulator (st : ImporterState) :
    (insertBlock st).htmlAccumulator = st.htmlAccumulator := by
  unfold insertBlock cursorInsertBlock
  dsimp only
  split <;> rfl

@[simp] theorem insertBlock_blockType (st : ImporterState) :
    (insertBlock st).blockType = st.blockType := by
  unfold insertBlock cursorInsertBlock
  dsimp only
  split <;> rfl

@[simp] theorem setBlockFormat_charFormat (st : ImporterState) (f : QTextBlockFormat) :
    (setBlockFormat st f).cursor.charFormat = st.cursor.charFormat := by
  unfold setBlockFormat
  dsimp only
  split <;> split <;> rfl

@[simp] theorem setBlockFormat_doc (st : ImporterState) (f : QTextBlockFormat) :
    (setBlockFormat st f).doc = st.doc := by
  unfold setBlockFormat
  dsimp only
  split <;> split <;> rfl

@[simp] theorem setBlockFormat_spanFormatStack (st : ImporterState) (f : QTextBlockFormat) :
    (setBlockFormat st f).spanFormatStack = st.spanFormatStack := by
  unfold setBlockFormat
  dsimp only
  split <;> split <;> rfl

@[simp] theorem setBlockFormat_htmlAccumulator (st : ImporterState) (f : QTextBlockFormat) :
    (setBlockFormat st f).htmlAccumulator = st.htmlAccumulator := by
  unfold setBlockFormat
  dsimp only
  split <;> split <;> rfl

@[simp] theorem setBlockFormat_htmlTagDepth (st : ImporterState) (f : QTextBlockFormat) :
    (setBlockFormat st f).htmlTagDepth = st.htmlTagDepth := by
  unfold setBlockFormat
  dsimp only
  split <;> split <;> rfl

@[simp] theorem setBlockFormat_warnings (st : ImporterState) (f : QTextBlockFormat) :
    (setBlockFormat st f).warnings = st.warnings := by
  unfold setBlockFormat
  dsimp only
  split <;> split <;> rfl

@[simp] theorem isEmpty_emptyString : ("" : String).isEmpty = true := rfl

@[simp] theorem isEmpty_space : (" " : String).isEmpty = false := rfl

@[simp] theorem isEmpty_newline : ("\n" : String).isEmpty = false := rfl

@[simp] theorem isEmpty_replacementChar : ("\uFFFD" : String).isEmpty = false := rfl

/-! C3: raw-HTML accumulation. -/

/-- An open raw-HTML fragment inside a paragraph: after these events
the tag depth is 1 and the fragment sits in the accumulator. -/
def htmlOpenEvents : List Event :=
  [ .enterBlock .p, .text .normal "a", .text .html "<span>" ]

/-- The state reached after htmlOpenEvents. -/
def htmlOpenState : ImporterState := stateOf (applyEvents st0 htmlOpenEvents) st0

/-- C3 counterexample: with raw-HTML tag depth 1 (an unclosed "span" tag in
the accumulator), a SoftBreak text event still inserts a space into the
document instead of being buffered: text events other than Normal and
RawHtmlFragment are not buffered while depth is nonzero. -/
theorem c3_counterexample :
    htmlOpenState.htmlTagDepth = 1 ∧
    (cbText htmlOpenState .softbr "\n").1.doc
      = htmlOpenState.doc ++ [.insertText " " {}] ∧
    (cbText htmlOpenState .softbr "\n").1.htmlAccumulator
      = htmlOpenState.htmlAccumulator := by
  exact ⟨rfl, rfl, rfl⟩

/-- C3 amended: while tag depth is nonzero, Normal fragments are buffered
into the accumulator (no insertion) and html fragments accumulate, but
other text subkinds (e.g. SoftBreak) still insert; when an html fragment
brings the depth back to exactly zero, the whole accumulated markup is
inserted once as literal markup, the active character format is restored
to the span-stack top (or the empty format), and the accumulator is
cleared. -/
theorem c3_theorem : ∀ (st : ImporterState) (s : String),
    st.imageSpan = false → st.needsInsertBlock = false →
    st.blockType ≠ .td → st.cursor.currentList = none →
    ((st.htmlTagDepth ≠ 0 → cbText st .normal s
        = ({ st with htmlAccumulator := st.htmlAccumulator ++ s }, 0)) ∧
     (st.htmlTagDepth ≠ 0 → cbText st .softbr s
        = (emit st (.insertText " " st.cursor.charFormat), 0)) ∧
     (st.htmlTagDepth + (countOpenTags s.data : Int) - (countCloseTags s.data : Int) = 0 →
        cbText st .html s
          = ({ st with
                 htmlTagDepth := 0, htmlAccumulator := "",
                 doc := st.doc ++ [.insertHtml (st.htmlAccumulator ++ s)],
                 cursor := { st.cursor with
                               charFormat := spanStackTop st.spanFormatStack } }, 0)) ∧
     (st.htmlTagDepth + (countOpenTags s.data : Int) - (countCloseTags s.data : Int) ≠ 0 →
        cbText st .html s
          = ({ st with
                 htmlTagDepth := st.htmlTagDepth + (countOpenTags s.data : Int)
                   - (countCloseTags s.data : Int),
                 htmlAccumulator := st.htmlAccumulator ++ s }, 0))) := by
  intro st s h1 h2 h3 h4
  refine ⟨?_, ?_, ?_, ?_⟩
  · intro hd
    simp [cbText, h1, h2, h3, h4, hd]
  · intro _hd
    simp [cbText, h1, h2, h3, h4, emit, setBlockFormat]
  · intro hd
    simp [cbText, h1, h2, h3, h4, hd, emit, setCharFormat]
  · intro hd
    simp [cbText, h1, h2, h3, h4, hd]

/-- A state in the middle of raw-HTML accumulation: depth 1, an unclosed
bold tag buffered. -/
def c3wState : ImporterState := { st0 with htmlTagDepth := 1, htmlAccumulator := "<b" }

/-- C3 witness: the amended claim instantiated at a concrete accumulating
state, for a buffered Normal fragment and for the html fragment that
closes the tag and flushes. -/
theorem c3_witness :
    cbText c3wState .normal "x"
      = ({ c3wState with htmlAccumulator := c3wState.htmlAccumulator ++ "x" }, 0) ∧
    cbText c3wState .html "</b>"
      = ({ c3wState with
             htmlTagDepth := 0, htmlAccumulator := "",
             doc := c3wState.doc ++ [.insertHtml (c3wState.htmlAccumulator ++ "</b>")],
             cursor := { c3wState.cursor with
                           charFormat := spanStackTop c3wState.spanFormatStack } }, 0) := by
  exact ⟨(c3_theorem c3wState "x" rfl rfl (by decide) rfl).1 (by decide),
         (c3_theorem c3wState "</b>" rfl rfl (by decide) rfl).2.2.1 (by decide)⟩

/-! C4: span formats do not compose. -/

/-- C4: after EnterSpan the active character format is exactly the snapshot
built for that span (pushed on the stack), not merged with the enclosing
format; after LeaveSpan it is the new top of the stack (or empty); in
particular Strong entered inside Emphasis yields bold without italic. -/
theorem c4_theorem :
    (∀ (st : ImporterState) (ev : SpanEvent),
        (cbEnterSpan st ev).1.cursor.charFormat = spanSnapshot st ev ∧
        (cbEnterSpan st ev).1.spanFormatStack = spanSnapshot st ev :: st.spanFormatStack) ∧
    (∀ (st : ImporterState) (k : SpanKind),
        (cbLeaveSpan st k).1.cursor.charFormat = spanStackTop st.spanFormatStack.tail) ∧
    (∀ st : ImporterState,
        (cbEnterSpan (cbEnterSpan st .em).1 .strong).1.cursor.charFormat.fontWeight = 75 ∧
        (cbEnterSpan (cbEnterSpan st .em).1 .strong).1.cursor.charFormat.fontItalic = false) := by
  refine ⟨?_, ?_, ?_⟩
  · intro st ev
    cases ev with
    | img src title =>
        simp only [cbEnterSpan, spanSnapshot]
        constructor
        · rfl
        · split <;> simp
    | em => simp [cbEnterSpan, spanSnapshot]
    | strong => simp [cbEnterSpan, spanSnapshot]
    | a href title => simp [cbEnterSpan, spanSnapshot]
    | code => simp [cbEnterSpan, spanSnapshot]
    | del => simp [cbEnterSpan, spanSnapshot]
    | other n => simp [cbEnterSpan, spanSnapshot]
  · intro st k
    cases h : st.spanFormatStack with
    | nil =>
        simp only [cbLeaveSpan, h, List.tail_nil]
        split <;> rfl
    | cons f rest =>
        simp only [cbLeaveSpan, h, List.tail_cons]
        split <;> rfl
  · intro st
    simp [cbEnterSpan, spanSnapshot]

/-! C5: the abort status. -/

/-- The failing-lookup condition of a TableHeaderCell or TableDataCell
enter event: the cell at (rowCount-1, currentColumn) — addressed after the
event's increments and, for a header cell, after the potential one-column
growth — is invalid. -/
def cellLookupFails (st : ImporterState) : BlockEvent → Bool
  | .td _ =>
      match st.table with
      | some t => ! cellValid t (st.tableRowCount - 1) (st.tableCol + 1)
      | none => false
  | .th =>
      match st.table with
      | some t =>
          let cols := if (t.cols : Int) < st.tableColumnCount + 1 then t.cols + 1 else t.cols
          ! cellValid { t with cols := cols } (st.tableRowCount - 1) (st.tableCol + 1)
      | none => false
  | _ => false

/-- C5: a defined block handler signals abort (nonzero status) exactly when
a TableHeaderCell or TableDataCell enter event's cell lookup fails; in that
case the warning is recorded and the sink trace keeps everything inserted
before the event (no rollback: the old trace is a prefix of the new one);
leave handlers always return 0. -/
theorem c5_theorem :
    (∀ (st : ImporterState) (ev : BlockEvent), cbEnterBlock st ev ≠ none →
        ((statusOf (cbEnterBlock st ev) ≠ 0 ↔ cellLookupFails st ev = true) ∧
         (statusOf (cbEnterBlock st ev) ≠ 0 →
            (stateOf (cbEnterBlock st ev) st).warnings
              = st.warnings ++ ["malformed table in Markdown input"] ∧
            ∃ tl, (stateOf (cbEnterBlock st ev) st).doc = st.doc ++ tl))) ∧
    (∀ (st : ImporterState) (t : MDBlockType), cbLeaveBlock st t ≠ none →
        statusOf (cbLeaveBlock st t) = 0) := by
  constructor
  · intro st ev hdef
    cases ev with
    | td align =>
        cases ht : st.table with
        | none =>
            exfalso
            apply hdef
            simp [cbEnterBlock, ht]
        | some t =>
            by_cases hv : cellValid t (st.tableRowCount - 1) (st.tableCol + 1)
            · simp [cbEnterBlock, statusOf, stateOf, cellLookupFails, ht, hv]
            · simp [cbEnterBlock, statusOf, stateOf, cellLookupFails, ht, hv]
    | th =>
        cases ht : st.table with
        | none =>
            exfalso
            apply hdef
            simp [cbEnterBlock, ht]
        | some t =>
            by_cases hg : (t.cols : Int) < st.tableColumnCount + 1
            · by_cases hv : cellValid { t with cols := t.cols + 1 }
                  (st.tableRowCount - 1) (st.tableCol + 1)
              · simp [cbEnterBlock, statusOf, stateOf, cellLookupFails, ht, hg, hv, emit]
              · simp [cbEnterBlock, statusOf, stateOf, cellLookupFails, ht, hg, hv, emit]
            · by_cases hv : cellValid t (st.tableRowCount - 1) (st.tableCol + 1)
              · have hv2 : cellValid { t with cols := t.cols }
                    (st.tableRowCount - 1) (st.tableCol + 1) = true := by
                  simpa using hv
                simp [cbEnterBlock, statusOf, stateOf, cellLookupFails, ht, hg, hv, hv2, emit]
              · have hv2 : ¬ cellValid { t with cols := t.cols }
                    (st.tableRowCount - 1) (st.tableCol + 1) = true := by
                  simpa using hv
                simp [cbEnterBlock, statusOf, stateOf, cellLookupFails, ht, hg, hv, hv2, emit]
    | li is_task task_mark =>
        cases hl : st.listStack with
        | nil =>
            exfalso
            apply hdef
            simp [cbEnterBlock, hl]
        | cons lid rest =>
            simp [cbEnterBlock, statusOf, cellLookupFails, hl]
    | tr =>
        cases ht : st.table with
        | none =>
            exfalso
            apply hdef
            simp [cbEnterBlock, ht]
        | some t =>
            simp [cbEnterBlock, statusOf, cellLookupFails, ht, emit]
    | p =>
        simp only [cbEnterBlock]
        split
        · simp [statusOf, cellLookupFails]
        · split <;> simp [statusOf, cellLookupFails]
    | quote => simp [cbEnterBlock, statusOf, cellLookupFails]
    | code lang info => simp [cbEnterBlock, statusOf, cellLookupFails]
    | h level => simp [cbEnterBlock, statusOf, cellLookupFails]
    | ul mark => simp [cbEnterBlock, statusOf, cellLookupFails]
    | ol mark_delimiter => simp [cbEnterBlock, statusOf, cellLookupFails]
    | table => simp [cbEnterBlock, statusOf, cellLookupFails]
    | hr => simp [cbEnterBlock, statusOf, cellLookupFails]
    | doc => simp [cbEnterBlock, statusOf, cellLookupFails]
    | html => simp [cbEnterBlock, statusOf, cellLookupFails]
    | thead => simp [cbEnterBlock, statusOf, cellLookupFails]
    | tbody => simp [cbEnterBlock, statusOf, cellLookupFails]
    | other n => simp [cbEnterBlock, statusOf, cellLookupFails]
  · intro st t hdef
    cases t with
    | ul =>
        cases hl : st.listStack with
        | nil =>
            exfalso
            apply hdef
            simp [cbLeaveBlock, hl]
        | cons lid rest => simp [cbLeaveBlock, statusOf, hl]
    | ol =>
        cases hl : st.listStack with
        | nil =>
            exfalso
            apply hdef
            simp [cbLeaveBlock, hl]
        | cons lid rest => simp [cbLeaveBlock, statusOf, hl]
    | tr =>
        cases ht : st.table with
        | none =>
            by_cases hm : (mergeLoop st.nonEmptyTableCells (colsDesc st.tableCol)
                none none).isEmpty
            · simp [cbLeaveBlock, statusOf, ht, hm]
            · exfalso
              apply hdef
              simp [cbLeaveBlock, ht, hm]
        | some t => simp [cbLeaveBlock, statusOf, ht]
    | quote => simp [cbLeaveBlock, statusOf]
    | table => simp [cbLeaveBlock, statusOf]
    | li => simp [cbLeaveBlock, statusOf]
    | code => simp [cbLeaveBlock, statusOf]
    | h => simp [cbLeaveBlock, statusOf]
    | doc => simp [cbLeaveBlock, statusOf]
    | html => simp [cbLeaveBlock, statusOf]
    | thead => simp [cbLeaveBlock, statusOf]
    | tbody => simp [cbLeaveBlock, statusOf]
    | p => simp [cbLeaveBlock, statusOf]
    | th => simp [cbLeaveBlock, statusOf]
    | td => simp [cbLeaveBlock, statusOf]
    | hr => simp [cbLeaveBlock, statusOf]
    | other n => simp [cbLeaveBlock, statusOf]

/-- A state in the middle of a 1x1 table whose row counter points past the
table's shape, so the next data-cell lookup fails. -/
def c5wState : ImporterState :=
  { st0 with table := some { rows := 1, cols := 1 }, tableRowCount := 1, tableCol := 0 }

/-- C5 witness: the abort characterization instantiated at a concrete
failing TableDataCell event and a concrete leave event. -/
theorem c5_witness :
    (statusOf (cbEnterBlock c5wState (.td .dflt)) ≠ 0
        ↔ cellLookupFails c5wState (.td .dflt) = true) ∧
    ((stateOf (cbEnterBlock c5wState (.td .dflt)) c5wState).warnings
        = c5wState.warnings ++ ["malformed table in Markdown input"] ∧
     ∃ tl, (stateOf (cbEnterBlock c5wState (.td .dflt)) c5wState).doc
        = c5wState.doc ++ tl) ∧
    statusOf (cbLeaveBlock c5wState .p) = 0 := by
  refine ⟨(c5_theorem.1 c5wState (.td .dflt) (by decide)).1,
          (c5_theorem.1 c5wState (.td .dflt) (by decide)).2 (by decide),
          c5_theorem.2 c5wState .p (by decide)⟩

/-! C6: the deferred block insertion. -/

/-- Two nested block quotes around a paragraph. -/
def quoteDepth2Events : List Event :=
  [ .enterBlock .quote, .enterBlock .quote, .enterBlock .p, .text .normal "x" ]

/-- C6 counterexample: at block-quote depth 2 the deferred block is created
with left margin 80 (one indent unit per level) but right margin 40 (one
single indent unit), not 80 — the right margin is NOT scaled by the
depth. -/
theorem c6_counterexample :
    (applyEvents st0 quoteDepth2Events).map (fun pr => pr.1.doc.head?)
      = some (some (.insertBlock
          { leftMargin := 80, rightMargin := 40, topMargin := 8, bottomMargin := 8,
            blockQuoteLevel := some 2 } {})) ∧
    (40 : Int) ≠ BlockQuoteIndent * 2 := by
  exact ⟨rfl, by decide⟩

/-- C6 amended: the deferred insertion emits exactly one block whose left
margin is the quote indent unit times blockQuoteDepth while the right
margin is one single quote indent unit (when the depth is nonzero), whose
indent is the list-stack depth, which carries the code language and the
monospaced font inside a code block, and top/bottom paragraph margins
otherwise; a pending insertion is realized by the first text or image
event. -/
theorem c6_theorem :
    (∀ st : ImporterState,
      (insertBlock st).doc
          = st.doc ++ [.insertBlock (insertBlockFormats st).1 (insertBlockFormats st).2] ∧
      (insertBlock st).needsInsertBlock = false ∧
      (st.blockQuoteDepth ≠ 0 →
          (insertBlockFormats st).1.leftMargin = BlockQuoteIndent * st.blockQuoteDepth ∧
          (insertBlockFormats st).1.rightMargin = BlockQuoteIndent ∧
          (insertBlockFormats st).1.blockQuoteLevel = some st.blockQuoteDepth) ∧
      (insertBlockFormats st).1.indent = st.listStack.length ∧
      (st.codeBlock = true →
          (insertBlockFormats st).1.blockCodeLanguage = some st.blockCodeLanguage ∧
          (insertBlockFormats st).2.font = some st.monoFont) ∧
      (st.codeBlock = false →
          (insertBlockFormats st).1.topMargin = st.paragraphMargin ∧
          (insertBlockFormats st).1.bottomMargin = st.paragraphMargin ∧
          (insertBlockFormats st).2 = spanStackTop st.spanFormatStack)) ∧
    (∀ (st : ImporterState) (s : String),
      st.imageSpan = false → st.needsInsertBlock = true → st.htmlTagDepth = 0 →
      st.blockType ≠ .td → s ≠ "" →
      (cbText st .normal s).1.doc
        = st.doc ++ [.insertBlock (insertBlockFormats st).1 (insertBlockFormats st).2,
                     .insertText s (insertBlockFormats st).2]) ∧
    (∀ (st : ImporterState) (src title : String),
      st.imageSpan = false → st.needsInsertBlock = true →
      (cbEnterSpan st (.img src title)).1.doc
        = st.doc ++ [.insertBlock (insertBlockFormats st).1 (insertBlockFormats st).2,
                     .insertImage src]) := by
  refine ⟨?_, ?_, ?_⟩
  · intro st
    refine ⟨by simp, by simp, ?_, ?_, ?_, ?_⟩
    · intro hq
      simp [insertBlockFormats, hq]
      split <;> split <;> simp
    · by_cases hl : st.listStack.length = 0
      · simp [insertBlockFormats, hl]
        split <;> split <;> simp [hl]
      · simp [insertBlockFormats, hl]
        split <;> split <;> simp
    · intro hc
      simp [insertBlockFormats, hc]
    · intro hc
      simp [insertBlockFormats, hc]
  · intro st s h1 h2 h3 h4 h5
    have h6 : s.isEmpty = false := by
      cases he : s.isEmpty
      · rfl
      · exact absurd ((String.isEmpty_iff s).mp he) h5
    cases hcl : st.cursor.currentList with
    | none => simp [cbText, h1, h2, h3, h4, h6, emit]
    | some lid => simp [cbText, h1, h2, h3, h4, h6, emit]
  · intro st src title h1 h2
    simp [cbEnterSpan, h2, emit]
    exact ⟨rfl, rfl⟩

/-- A state at block-quote depth 1, outside any code block. -/
def c6wQuote : ImporterState := { st0 with blockQuoteDepth := 1 }

/-- A state inside a fenced code block with language "c". -/
def c6wCode : ImporterState := { st0 with codeBlock := true, blockCodeLanguage := "c" }

/-- A state with a deferred block insertion pending. -/
def c6wPending : ImporterState := { st0 with needsInsertBlock := true }

/-- C6 witness: a state at quote depth 1 out of code, and a state inside a
code block; plus the text-event and image-event realizations. -/
theorem c6_witness :
    ((insertBlockFormats c6wQuote).1.leftMargin
        = BlockQuoteIndent * c6wQuote.blockQuoteDepth ∧
     (insertBlockFormats c6wQuote).1.rightMargin = BlockQuoteIndent ∧
     (insertBlockFormats c6wQuote).1.blockQuoteLevel = some c6wQuote.blockQuoteDepth) ∧
    ((insertBlockFormats c6wCode).1.blockCodeLanguage = some c6wCode.blockCodeLanguage ∧
     (insertBlockFormats c6wCode).2.font = some c6wCode.monoFont) ∧
    (cbText c6wPending .normal "q").1.doc
      = c6wPending.doc
        ++ [.insertBlock (insertBlockFormats c6wPending).1 (insertBlockFormats c6wPending).2,
            .insertText "q" (insertBlockFormats c6wPending).2] ∧
    (cbEnterSpan c6wPending (.img "i.png" "t")).1.doc
      = c6wPending.doc
        ++ [.insertBlock (insertBlockFormats c6wPending).1 (insertBlockFormats c6wPending).2,
            .insertImage "i.png"] := by
  refine ⟨(c6_theorem.1 c6wQuote).2.2.1 (by decide),
          (c6_theorem.1 c6wCode).2.2.2.2.1 rfl,
          c6_theorem.2.1 c6wPending "q" rfl rfl rfl (by decide) (by decide),
          c6_theorem.2.2 c6wPending "i.png" "t" rfl rfl⟩

/-! C7: headings. -/

/-- C7: a Heading(level) enter event immediately inserts one block with
heading level `level`, bold weight and font size adjustment 4 - level, and
leaves no insertion pending. -/
theorem c7_theorem : ∀ (st : ImporterState) (level : Nat), 1 ≤ level → level ≤ 6 →
    ∃ st', cbEnterBlock st (.h level) = some (st', 0) ∧
      st'.doc = st.doc ++ [.insertBlock { headingLevel := level }
          { fontWeight := 75, fontSizeAdjustment := some (4 - (level : Int)) }] ∧
      st'.needsInsertBlock = false := by
  intro st level h1 h2
  exact ⟨_, rfl, by simp [cbEnterBlock], by simp [cbEnterBlock]⟩

/-- C7 witness: a level-3 heading. -/
theorem c7_witness :
    ∃ st', cbEnterBlock st0 (.h 3) = some (st', 0) ∧
      st'.doc = st0.doc ++ [.insertBlock { headingLevel := 3 }
          { fontWeight := 75, fontSizeAdjustment := some (4 - ((3 : Nat) : Int)) }] ∧
      st'.needsInsertBlock = false :=
  c7_theorem st0 3 (by decide) (by decide)

/-! C8: text subkinds. -/

/-- C8: outside an image span (and with no insertion pending), the content
a text event inserts is fixed by its subkind: Normal as-is unless raw-HTML
accumulation is active (then buffered), NullChar the replacement character,
HardBreak the newline, SoftBreak a space, Code the text under the already
active format, Entity literal markup, and html fragments are accumulated
and only flushed as markup when depth reaches zero. -/
theorem c8_theorem : ∀ (st : ImporterState) (s : String),
    st.imageSpan = false → st.needsInsertBlock = false → s ≠ "" →
    ((st.htmlTagDepth = 0 →
        (cbText st .normal s).1.doc = st.doc ++ [.insertText s st.cursor.charFormat]) ∧
     (st.htmlTagDepth ≠ 0 →
        (cbText st .normal s).1.doc = st.doc ∧
        (cbText st .normal s).1.htmlAccumulator = st.htmlAccumulator ++ s) ∧
     (cbText st .nullchar s).1.doc
        = st.doc ++ [.insertText "\uFFFD" st.cursor.charFormat] ∧
     (cbText st .br s).1.doc = st.doc ++ [.insertText "\n" st.cursor.charFormat] ∧
     (cbText st .softbr s).1.doc = st.doc ++ [.insertText " " st.cursor.charFormat] ∧
     (cbText st .code s).1.doc = st.doc ++ [.insertText s st.cursor.charFormat] ∧
     (cbText st .entity s).1.doc = st.doc ++ [.insertHtml s] ∧
     ((cbText st .html s).1.htmlAccumulator
        = if st.htmlTagDepth + (countOpenTags s.data : Int) - (countCloseTags s.data : Int) = 0
          then "" else st.htmlAccumulator ++ s) ∧
     ((cbText st .html s).1.doc
        = if st.htmlTagDepth + (countOpenTags s.data : Int) - (countCloseTags s.data : Int) = 0
          then st.doc ++ [.insertHtml (st.htmlAccumulator ++ s)] else st.doc)) := by
  intro st s h1 h2 h3
  have h6 : s.isEmpty = false := by
    cases he : s.isEmpty
    · rfl
    · exact absurd ((String.isEmpty_iff s).mp he) h3
  refine ⟨?_, ?_, ?_, ?_, ?_, ?_, ?_, ?_, ?_⟩
  · intro hd
    by_cases htd : st.blockType = .td <;> cases hcl : st.cursor.currentList <;>
      simp [cbText, h1, h2, h6, hd, htd, hcl, emit, setCharFormat]
  · intro hd
    by_cases htd : st.blockType = .td <;> cases hcl : st.cursor.currentList <;>
      simp [cbText, h1, h2, h6, hd, htd, hcl, emit, setCharFormat]
  · by_cases htd : st.blockType = .td <;> cases hcl : st.cursor.currentList <;>
      simp [cbText, h1, h2, h6, htd, hcl, emit, setCharFormat]
  · by_cases htd : st.blockType = .td <;> cases hcl : st.cursor.currentList <;>
      simp [cbText, h1, h2, h6, htd, hcl, emit, setCharFormat]
  · by_cases htd : st.blockType = .td <;> cases hcl : st.cursor.currentList <;>
      simp [cbText, h1, h2, h6, htd, hcl, emit, setCharFormat]
  · by_cases htd : st.blockType = .td <;> cases hcl : st.cursor.currentList <;>
      simp [cbText, h1, h2, h6, htd, hcl, emit, setCharFormat]
  · by_cases htd : st.blockType = .td <;> cases hcl : st.cursor.currentList <;>
      simp [cbText, h1, h2, h6, htd, hcl, emit, setCharFormat]
  · by_cases hdz : st.htmlTagDepth + (countOpenTags s.data : Int)
        - (countCloseTags s.data : Int) = 0 <;>
      by_cases htd : st.blockType = .td <;> cases hcl : st.cursor.currentList <;>
      simp [cbText, h1, h2, h6, hdz, htd, hcl, emit, setCharFormat]
  · by_cases hdz : st.htmlTagDepth + (countOpenTags s.data : Int)
        - (countCloseTags s.data : Int) = 0 <;>
      by_cases htd : st.blockType = .td <;> cases hcl : st.cursor.currentList <;>
      simp [cbText, h1, h2, h6, hdz, htd, hcl, emit, setCharFormat]

/-- A state in the middle of raw-HTML accumulation, for the buffered case
of the C8 witness. -/
def c8wDeep : ImporterState := { st0 with htmlTagDepth := 1, htmlAccumulator := "<i" }

/-- C8 witness: the subkind clauses instantiated at concrete states. -/
theorem c8_witness :
    (cbText st0 .normal "q").1.doc = st0.doc ++ [.insertText "q" st0.cursor.charFormat] ∧
    ((cbText c8wDeep .normal "q").1.doc = c8wDeep.doc ∧
     (cbText c8wDeep .normal "q").1.htmlAccumulator = c8wDeep.htmlAccumulator ++ "q") ∧
    (cbText st0 .nullchar "q").1.doc
      = st0.doc ++ [.insertText "\uFFFD" st0.cursor.charFormat] ∧
    (cbText st0 .br "q").1.doc = st0.doc ++ [.insertText "\n" st0.cursor.charFormat] ∧
    (cbText st0 .softbr "q").1.doc = st0.doc ++ [.insertText " " st0.cursor.charFormat] ∧
    (cbText st0 .code "q").1.doc = st0.doc ++ [.insertText "q" st0.cursor.charFormat] ∧
    (cbText st0 .entity "q").1.doc = st0.doc ++ [.insertHtml "q"] := by
  refine ⟨(c8_theorem st0 "q" rfl rfl (by decide)).1 rfl,
          (c8_theorem c8wDeep "q" rfl rfl (by decide)).2.1 (by decide),
          (c8_theorem st0 "q" rfl rfl (by decide)).2.2.1,
          (c8_theorem st0 "q" rfl rfl (by decide)).2.2.2.1,
          (c8_theorem st0 "q" rfl rfl (by decide)).2.2.2.2.1,
          (c8_theorem st0 "q" rfl rfl (by decide)).2.2.2.2.2.1,
          (c8_theorem st0 "q" rfl rfl (by decide)).2.2.2.2.2.2.1⟩

/-! C9: unknown block kinds. -/

/-- A state whose current block kind is Paragraph. -/
def c9State : ImporterState := { st0 with blockType := .p }

/-- C9 counterexample: an EnterBlock event with an unknown kind does NOT
leave the State Context unchanged: cbEnterBlock stores the event's kind
into the current-block-kind field before dispatching, so the state
changes (here from Paragraph to the unknown kind 99). -/
theorem c9_counterexample :
    cbEnterBlock c9State (.other 99) = some ({ c9State with blockType := .other 99 }, 0) ∧
    ({ c9State with blockType := MDBlockType.other 99 } : ImporterState) ≠ c9State := by
  exact ⟨rfl, by decide⟩

/-- C9 amended: an unknown block kind is ignored — status 0, no document
mutation, and no state change except that EnterBlock records the event's
kind as the current block kind (LeaveBlock changes nothing at all). -/
theorem c9_theorem : ∀ (st : ImporterState) (n : Nat),
    cbEnterBlock st (.other n) = some ({ st with blockType := .other n }, 0) ∧
    cbLeaveBlock st (.other n) = some (st, 0) := by
  intro st n
  exact ⟨rfl, rfl⟩

/-! C10: LeaveSpan on an empty stack. -/

/-- C10: a LeaveSpan event arriving on an empty span-format stack performs
no pop (the stack stays empty), resets the active character format to the
empty format, clears the inside-image flag exactly when the span kind is
Image, changes nothing else, and returns 0. -/
theorem c10_theorem : ∀ (st : ImporterState) (k : SpanKind),
    st.spanFormatStack = [] →
    cbLeaveSpan st k
      = ({ st with
             cursor := { st.cursor with charFormat := {} },
             imageSpan := if k = SpanKind.img then false else st.imageSpan }, 0) := by
  intro st k h
  by_cases hk : k = SpanKind.img <;>
    simp [cbLeaveSpan, h, hk, setCharFormat]

/-- A state inside an image span with an empty span-format stack. -/
def c10wState : ImporterState := { st0 with imageSpan := true }

/-- C10 witness: leaving an Image span on the empty stack. -/
theorem c10_witness :
    cbLeaveSpan c10wState .img
      = ({ c10wState with
             cursor := { c10wState.cursor with charFormat := {} },
             imageSpan := if SpanKind.img = SpanKind.img then false
                          else c10wState.imageSpan }, 0) :=
  c10_theorem c10wState .img rfl

end QtMdImport
